import Mathlib

/-!
Verification development for the support-ticket application (src/app.py).

The relational store is embedded as explicit lists: the `tickets` table is a
`List Ticket` (with the AUTOINCREMENT counter carried as `nextId`), the
append-only `timeline` table a `List TimelineEntry`, and the `technicians`
table a `List Technician`.  Timestamps (ISO strings produced by `_now_lima`
and parsed back by `datetime.fromisoformat`) are embedded as rationals:
every route receives the current time as an explicit `now` parameter.
Roles and statuses are the literal strings the code compares
("admin", "technician", "dispatcher"; "Pendiente", "En progreso", "Cerrado").
Each Flask handler becomes a function from the store, the session user
context and the request data to the new store plus an HTTP response.
-/

/-- A row of the `tickets` table. -/
structure Ticket where
  id : Nat
  email_from : String
  subject : String
  body : String
  assigned_to : String
  status : String
  created_at : ℚ
  closed_at : Option ℚ
deriving DecidableEq, Repr

/-- A row of the `timeline` table (the autoincrement id is immaterial:
entries are only ever appended and read back in order). -/
structure TimelineEntry where
  ticket_id : Nat
  event : String
  created_at : ℚ
deriving DecidableEq, Repr

/-- A row of the `technicians` table. -/
structure Technician where
  name : String
  email : String
  specialty : String
  is_active : Bool
deriving DecidableEq, Repr

/-- The mutable relational store: the `tickets` and `timeline` tables,
plus the AUTOINCREMENT counter for ticket ids (`cursor.lastrowid`). -/
structure DB where
  tickets : List Ticket
  timeline : List TimelineEntry
  nextId : Nat
deriving DecidableEq, Repr

/-- The session-derived user context returned by `_get_user_context`. -/
structure UserCtx where
  role : String
  technician_email : String
  identifier : String
deriving DecidableEq, Repr

/-- HTTP responses the embedded handlers can produce.  The mutation routes
only ever redirect; `notFound` is produced by `ticket_detail`, `page` stands
for a rendered 200 page. -/
inductive Resp where
  | redirect (ticket_id : Nat)
  | notFound
  | page
deriving DecidableEq, Repr

/-- The seed list `DEFAULT_TECHNICIANS`; "Redes" (networks) is the
networking specialty, so Laura Gomez is the networking technician. -/
def DEFAULT_TECHNICIANS : List Technician :=
  [⟨"Laura Gomez", "laura.gomez@miempresa.com", "Redes", true⟩,
   ⟨"Carlos Perez", "carlos.perez@miempresa.com", "Software", true⟩,
   ⟨"Ana Rojas", "ana.rojas@miempresa.com", "Hardware", true⟩]

/-- The characters Python `str.strip()` removes: exactly those accepted by
`str.isspace()` — U+0009..U+000D, space, the separator controls
U+001C..U+001F, U+0085, and the Unicode space characters (category Zs:
U+00A0, U+1680, U+2000..U+200A, U+202F, U+205F, U+3000, plus the line and
paragraph separators U+2028 and U+2029). -/
def isStripSpace (c : Char) : Bool :=
  decide ((0x09 ≤ c.toNat ∧ c.toNat ≤ 0x0d) ∨ c = ' '
    ∨ (0x1c ≤ c.toNat ∧ c.toNat ≤ 0x1f) ∨ c.toNat = 0x85
    ∨ c.toNat = 0xa0 ∨ c.toNat = 0x1680
    ∨ (0x2000 ≤ c.toNat ∧ c.toNat ≤ 0x200a)
    ∨ c.toNat = 0x2028 ∨ c.toNat = 0x2029 ∨ c.toNat = 0x202f
    ∨ c.toNat = 0x205f ∨ c.toNat = 0x3000)

/-- Python's `str.strip()`: drop leading and trailing whitespace. -/
def pyStrip (s : String) : String :=
  String.mk (((s.data.dropWhile isStripSpace).reverse.dropWhile isStripSpace).reverse)

/-- `_get_technician_by_email`: `None` for the empty string and the
"Sin asignar" sentinel, otherwise a lookup by (unique) email. -/
def _get_technician_by_email (techs : List Technician) (email : String) :
    Option Technician :=
  if email = "" ∨ email = "Sin asignar" then none
  else techs.find? (fun t => t.email = email)

/-- The `UPDATE tickets SET ... WHERE id = ?` statement: apply `f` to every
row whose id matches (ids are unique in practice, but the SQL touches all
matching rows, and so does the embedding). -/
def updateWhereId (tickets : List Ticket) (tid : Nat) (f : Ticket → Ticket) :
    List Ticket :=
  tickets.map (fun t => if t.id = tid then f t else t)

/-- `_create_ticket`: INSERT a row with assigned_to "Sin asignar" and status
"Pendiente", then INSERT one "Ticket creado" timeline row with the same
timestamp; returns the new store and `cursor.lastrowid`. -/
def _create_ticket (db : DB) (email_from subject body : String) (now : ℚ) :
    DB × Nat :=
  let ticket_id := db.nextId
  ({ tickets := db.tickets ++
      [{ id := ticket_id, email_from := email_from, subject := subject,
         body := body, assigned_to := "Sin asignar", status := "Pendiente",
         created_at := now, closed_at := none }],
     timeline := db.timeline ++
      [{ ticket_id := ticket_id, event := "Ticket creado", created_at := now }],
     nextId := db.nextId + 1 },
   ticket_id)

/-- The `close_ticket` route: guests and dispatchers are redirected with no
change; admins and technicians UPDATE status/closed_at of the matching rows
and append a "Ticket cerrado" timeline row (no existence check). -/
def close_ticket (db : DB) (user : UserCtx) (ticket_id : Nat) (now : ℚ) :
    DB × Resp :=
  if ¬ (user.role = "admin" ∨ user.role = "technician") then
    (db, Resp.redirect ticket_id)
  else
    ({ db with
        tickets := updateWhereId db.tickets ticket_id
          (fun t => { t with status := "Cerrado", closed_at := some now }),
        timeline := db.timeline ++
          [{ ticket_id := ticket_id, event := "Ticket cerrado", created_at := now }] },
     Resp.redirect ticket_id)

/-- The `comment_ticket` route: technician-only; the comment is stripped and
an empty result is a no-op; otherwise one timeline row is appended and the
tickets table is untouched. -/
def comment_ticket (db : DB) (user : UserCtx) (ticket_id : Nat)
    (comment : String) (now : ℚ) : DB × Resp :=
  if user.role ≠ "technician" then (db, Resp.redirect ticket_id)
  else
    let comment := pyStrip comment
    if comment = "" then (db, Resp.redirect ticket_id)
    else
      ({ db with timeline := db.timeline ++
          [{ ticket_id := ticket_id, event := "Comentario técnico: " ++ comment,
             created_at := now }] },
       Resp.redirect ticket_id)

/-- The `reassign_ticket` route: technician-only; empty target is a no-op;
the "dispatcher" sentinel resets to "Sin asignar"/"Pendiente"; a known
technician email reassigns and sets "En progreso"; an unknown email is a
no-op.  Both mutating branches append one timeline row. -/
def reassign_ticket (db : DB) (techs : List Technician) (user : UserCtx)
    (ticket_id : Nat) (technician_email note : String) (now : ℚ) : DB × Resp :=
  if user.role ≠ "technician" then (db, Resp.redirect ticket_id)
  else
    let note := pyStrip note
    if technician_email = "" then (db, Resp.redirect ticket_id)
    else if technician_email = "dispatcher" then
      let event := if note = "" then "Devuelto al derivador"
        else "Devuelto al derivador" ++ ": " ++ note
      ({ db with
          tickets := updateWhereId db.tickets ticket_id
            (fun t => { t with assigned_to := "Sin asignar", status := "Pendiente" }),
          timeline := db.timeline ++
            [{ ticket_id := ticket_id, event := event, created_at := now }] },
       Resp.redirect ticket_id)
    else
      match _get_technician_by_email techs technician_email with
      | none => (db, Resp.redirect ticket_id)
      | some technician =>
        let actor := if user.identifier = "" then "Técnico" else user.identifier
        let event0 := "Reasignado por " ++ actor ++ " a " ++ technician.name
          ++ " (" ++ technician.email ++ ")"
        let event := if note = "" then event0 else event0 ++ ": " ++ note
        ({ db with
            tickets := updateWhereId db.tickets ticket_id
              (fun t => { t with assigned_to := technician_email,
                                 status := "En progreso" }),
            timeline := db.timeline ++
              [{ ticket_id := ticket_id, event := event, created_at := now }] },
         Resp.redirect ticket_id)

/-- The label used in the `assign_ticket` timeline event: the technician
display name when the email is known, "Sin asignar" otherwise. -/
def assignedLabel (techs : List Technician) (technician_email : String) :
    String :=
  match _get_technician_by_email techs technician_email with
  | some technician => technician.name ++ " (" ++ technician.email ++ ")"
  | none => "Sin asignar"

/-- The `assign_ticket` route: dispatcher-only; a missing or empty form
field falls back to "Sin asignar" (Python `or`); the matching rows get the
given assigned_to and status "En progreso" (closed_at untouched) and one
timeline row naming dispatcher and technician is appended. -/
def assign_ticket (db : DB) (techs : List Technician) (user : UserCtx)
    (ticket_id : Nat) (technician_email_form : Option String) (now : ℚ) :
    DB × Resp :=
  if user.role ≠ "dispatcher" then (db, Resp.redirect ticket_id)
  else
    let technician_email := match technician_email_form with
      | none => "Sin asignar"
      | some s => if s = "" then "Sin asignar" else s
    let dispatcher := if user.identifier = "" then "Derivador" else user.identifier
    ({ db with
        tickets := updateWhereId db.tickets ticket_id
          (fun t => { t with assigned_to := technician_email,
                             status := "En progreso" }),
        timeline := db.timeline ++
          [{ ticket_id := ticket_id,
             event := "Derivado por " ++ dispatcher ++ " a "
               ++ assignedLabel techs technician_email,
             created_at := now }] },
     Resp.redirect ticket_id)

/-- The dashboard metrics dictionary returned by `_calculate_metrics`. -/
structure Metrics where
  total : Nat
  «open» : Nat
  closed : Nat
  avg_hours : ℚ
deriving DecidableEq, Repr

/-- Python `round(x, 2)` on a rational: round half to even at two decimal
places (CPython rounds half to even). -/
def round2 (x : ℚ) : ℚ :=
  let y := x * 100
  let f : ℤ := Int.floor y
  let r : ℤ :=
    if y - f < 1 / 2 then f
    else if y - f > 1 / 2 then f + 1
    else if f % 2 = 0 then f else f + 1
  (r : ℚ) / 100

/-- `_calculate_metrics`: one pass over the tickets collecting the
resolution durations (seconds) of rows with a set closed_at and counting
the rest as open; closed is computed as total minus open; the average is
0 when there are no durations, and the result is converted to hours and
rounded to two decimals. -/
def _calculate_metrics (tickets : List Ticket) : Metrics :=
  let durations := tickets.filterMap
    (fun t => t.closed_at.map (fun c => c - t.created_at))
  let open_tickets := (tickets.filter (fun t => t.closed_at.isNone)).length
  let average_seconds : ℚ :=
    if durations = [] then 0 else durations.sum / (durations.length : ℚ)
  { total := tickets.length
    «open» := open_tickets
    closed := tickets.length - open_tickets
    avg_hours := round2 (average_seconds / 3600) }

/-- Spec-side metrics (for the refinement claim about the aggregator),
written from the spec text: count total; count open (closed_at null);
count closed (closed_at non-null); average resolution hours is the mean of
(closed_at − created_at) over the closed tickets converted to hours,
rounded to 2 decimals, and 0 when there are no closed tickets. -/
def metricsSpec (tickets : List Ticket) : Metrics :=
  let hours := tickets.filterMap
    (fun t => t.closed_at.map (fun c => (c - t.created_at) / 3600))
  { total := tickets.length
    «open» := (tickets.filter (fun t => t.closed_at.isNone)).length
    closed := (tickets.filter (fun t => t.closed_at.isSome)).length
    avg_hours := if hours = [] then 0
      else round2 (hours.sum / (hours.length : ℚ)) }

/-- The data-model invariant stated by the spec: the closed timestamp is
set iff the status is "Cerrado". -/
def ticketInv (t : Ticket) : Prop :=
  t.closed_at ≠ none ↔ t.status = "Cerrado"

instance (t : Ticket) : Decidable (ticketInv t) := by
  unfold ticketInv; infer_instance

/-- Concrete fixture: a fresh ticket as `_create_ticket` produces it. -/
def wTicketOpen : Ticket :=
  { id := 1, email_from := "cliente@dominio.com", subject := "Sin asunto",
    body := "Sin detalle", assigned_to := "Sin asignar", status := "Pendiente",
    created_at := 0, closed_at := none }

/-- Concrete fixture: a ticket already closed two hours after creation. -/
def wTicketClosed : Ticket :=
  { id := 2, email_from := "otra@dominio.com", subject := "Otro asunto",
    body := "Detalle", assigned_to := "laura.gomez@miempresa.com",
    status := "Cerrado", created_at := 0, closed_at := some 7200 }

/-- Concrete fixture: a store holding one open and one closed ticket. -/
def wDB : DB :=
  { tickets := [wTicketOpen, wTicketClosed],
    timeline := [⟨1, "Ticket creado", 0⟩, ⟨2, "Ticket creado", 0⟩,
                 ⟨2, "Ticket cerrado", 7200⟩],
    nextId := 3 }

/-- Concrete fixture session contexts for each role. -/
def wAdmin : UserCtx := ⟨"admin", "", "admin@miempresa.com"⟩

def wTech : UserCtx := ⟨"technician", "ana.rojas@miempresa.com", "ana.rojas@miempresa.com"⟩

def wDispatcher : UserCtx := ⟨"dispatcher", "", "derivador@miempresa.com"⟩

def wGuest : UserCtx := ⟨"guest", "", ""⟩

theorem mem_updateWhereId (tickets : List Ticket) (tid : Nat)
    (f : Ticket → Ticket) (hid : ∀ s, (f s).id = s.id) (t : Ticket)
    (ht : t ∈ updateWhereId tickets tid f) :
    (t.id = tid → ∃ s ∈ tickets, s.id = tid ∧ t = f s) ∧
    (t.id ≠ tid → t ∈ tickets) := by
  obtain ⟨s, hs, rfl⟩ := List.mem_map.1 ht
  by_cases hc : s.id = tid
  · rw [if_pos hc]
    exact ⟨fun _ => ⟨s, hs, hc, rfl⟩, fun hne => absurd (by rw [hid s, hc]) hne⟩
  · rw [if_neg hc]
    exact ⟨fun h => absurd h hc, fun _ => hs⟩

theorem updateWhereId_of_not_mem (tickets : List Ticket) (tid : Nat)
    (f : Ticket → Ticket) (h : ∀ t ∈ tickets, t.id ≠ tid) :
    updateWhereId tickets tid f = tickets := by
  unfold updateWhereId
  calc tickets.map (fun t => if t.id = tid then f t else t)
      = tickets.map id := List.map_congr_left (fun t ht => by simp [h t ht])
    _ = tickets := List.map_id tickets

theorem updated_mem_updateWhereId (tickets : List Ticket) (tid : Nat)
    (f : Ticket → Ticket) (t : Ticket) (hmem : t ∈ tickets) (hid : t.id = tid) :
    f t ∈ updateWhereId tickets tid f := by
  unfold updateWhereId
  exact List.mem_map.2 ⟨t, hmem, by rw [if_pos hid]⟩

theorem filterMap_closed_length (ts : List Ticket) (g : Ticket → ℚ → ℚ) :
    (ts.filterMap (fun t => t.closed_at.map (g t))).length
      = (ts.filter (fun t => t.closed_at.isSome)).length := by
  induction ts with
  | nil => rfl
  | cons t ts ih =>
    cases h : t.closed_at <;>
      simp [List.filterMap_cons, List.filter_cons, h, ih]

theorem hours_eq_durations_div (ts : List Ticket) :
    ts.filterMap (fun t => t.closed_at.map (fun c => (c - t.created_at) / 3600))
      = (ts.filterMap (fun t => t.closed_at.map (fun c => c - t.created_at))).map
          (fun d => d / 3600) := by
  induction ts with
  | nil => rfl
  | cons t ts ih =>
    cases h : t.closed_at <;> simp [List.filterMap_cons, h, ih]

theorem sum_map_div (l : List ℚ) (c : ℚ) :
    (l.map (fun x => x / c)).sum = l.sum / c := by
  induction l with
  | nil => simp
  | cons x l ih => simp [ih, add_div]

theorem length_filter_none_add_some (ts : List Ticket) :
    (ts.filter (fun t => t.closed_at.isNone)).length
      + (ts.filter (fun t => t.closed_at.isSome)).length = ts.length := by
  induction ts with
  | nil => rfl
  | cons t ts ih =>
    cases h : t.closed_at <;> simp [List.filter_cons, h] <;> omega


/-- C2: for every input, `_create_ticket` inserts exactly one new ticket
with status "Pendiente" and assigned_to "Sin asignar" (closed_at null),
appends exactly one "Ticket creado" timeline entry for that ticket sharing
the ticket's creation timestamp, and returns the new ticket's id. -/
theorem C2_create_ticket (db : DB) (email_from subject body : String)
    (now : ℚ) :
    (_create_ticket db email_from subject body now).1.tickets
      = db.tickets ++
        [{ id := (_create_ticket db email_from subject body now).2,
           email_from := email_from, subject := subject, body := body,
           assigned_to := "Sin asignar", status := "Pendiente",
           created_at := now, closed_at := none }] ∧
    (_create_ticket db email_from subject body now).1.timeline
      = db.timeline ++
        [{ ticket_id := (_create_ticket db email_from subject body now).2,
           event := "Ticket creado", created_at := now }] ∧
    (_create_ticket db email_from subject body now).2 = db.nextId :=
  ⟨rfl, rfl, rfl⟩

/-- C4: closing by an admin or technician sets the matching ticket's status
to "Cerrado" and its closed timestamp to the current time (overwriting any
previous closed_at, so re-closing re-stamps the time), leaves other tickets
unchanged, and appends exactly one "Ticket cerrado" timeline entry. -/
theorem C4_close_ticket (db : DB) (user : UserCtx) (ticket_id : Nat)
    (now : ℚ) (hrole : user.role = "admin" ∨ user.role = "technician") :
    (∀ t ∈ (close_ticket db user ticket_id now).1.tickets,
        t.id = ticket_id → t.status = "Cerrado" ∧ t.closed_at = some now) ∧
    (∀ t ∈ (close_ticket db user ticket_id now).1.tickets,
        t.id ≠ ticket_id → t ∈ db.tickets) ∧
    (close_ticket db user ticket_id now).1.timeline
      = db.timeline ++ [⟨ticket_id, "Ticket cerrado", now⟩] := by
  unfold close_ticket
  rw [if_neg (not_not_intro hrole)]
  refine ⟨?_, ?_, rfl⟩
  · intro t ht htid
    obtain ⟨s, _, _, rfl⟩ :=
      (mem_updateWhereId db.tickets ticket_id
        (fun t => { t with status := "Cerrado", closed_at := some now })
        (fun s => rfl) t ht).1 htid
    exact ⟨rfl, rfl⟩
  · intro t ht htid
    exact (mem_updateWhereId db.tickets ticket_id
      (fun t => { t with status := "Cerrado", closed_at := some now })
      (fun s => rfl) t ht).2 htid

theorem C4_close_ticket_witness :
    (close_ticket wDB wAdmin 1 7).1.timeline
      = wDB.timeline ++ [⟨1, "Ticket cerrado", 7⟩] :=
  (C4_close_ticket wDB wAdmin 1 7 (Or.inl rfl)).2.2

/-- C7: every role-restricted mutation (close, comment, reassign, assign)
invoked by an actor whose role is not authorized for it redirects and
leaves the whole store (tickets table and timeline) unchanged. -/
theorem C7_unauthorized (db : DB) (techs : List Technician) (user : UserCtx)
    (ticket_id : Nat) (comment technician_email note : String)
    (technician_email_form : Option String) (now : ℚ) :
    (¬ (user.role = "admin" ∨ user.role = "technician") →
      close_ticket db user ticket_id now = (db, Resp.redirect ticket_id)) ∧
    (user.role ≠ "technician" →
      comment_ticket db user ticket_id comment now
        = (db, Resp.redirect ticket_id)) ∧
    (user.role ≠ "technician" →
      reassign_ticket db techs user ticket_id technician_email note now
        = (db, Resp.redirect ticket_id)) ∧
    (user.role ≠ "dispatcher" →
      assign_ticket db techs user ticket_id technician_email_form now
        = (db, Resp.redirect ticket_id)) := by
  refine ⟨?_, ?_, ?_, ?_⟩ <;> intro h
  · rw [close_ticket, if_pos h]
  · rw [comment_ticket, if_pos h]
  · rw [reassign_ticket, if_pos h]
  · rw [assign_ticket.eq_def, if_pos h]

theorem C7_unauthorized_witness :
    close_ticket wDB wGuest 1 5 = (wDB, Resp.redirect 1) ∧
    comment_ticket wDB wAdmin 1 "hola" 5 = (wDB, Resp.redirect 1) ∧
    reassign_ticket wDB DEFAULT_TECHNICIANS wDispatcher 1
      "laura.gomez@miempresa.com" "" 5 = (wDB, Resp.redirect 1) ∧
    assign_ticket wDB DEFAULT_TECHNICIANS wTech 1
      (some "laura.gomez@miempresa.com") 5 = (wDB, Resp.redirect 1) := by
  have hg := C7_unauthorized wDB DEFAULT_TECHNICIANS wGuest 1 "hola"
    "laura.gomez@miempresa.com" "" (some "laura.gomez@miempresa.com") 5
  have ha := C7_unauthorized wDB DEFAULT_TECHNICIANS wAdmin 1 "hola"
    "laura.gomez@miempresa.com" "" (some "laura.gomez@miempresa.com") 5
  have hd := C7_unauthorized wDB DEFAULT_TECHNICIANS wDispatcher 1 "hola"
    "laura.gomez@miempresa.com" "" (some "laura.gomez@miempresa.com") 5
  have ht := C7_unauthorized wDB DEFAULT_TECHNICIANS wTech 1 "hola"
    "laura.gomez@miempresa.com" "" (some "laura.gomez@miempresa.com") 5
  exact ⟨hg.1 (by decide), ha.2.1 (by decide), hd.2.2.1 (by decide),
    ht.2.2.2 (by decide)⟩

/-- C9: a comment whose text strips to empty is a no-op redirect (no
timeline append, no ticket change, for any actor); a comment with
non-empty stripped text from a technician appends exactly one timeline
entry and changes no ticket. -/
theorem C9_comment_ticket (db : DB) (user : UserCtx) (ticket_id : Nat)
    (comment : String) (now : ℚ) :
    (pyStrip comment = "" →
      comment_ticket db user ticket_id comment now
        = (db, Resp.redirect ticket_id)) ∧
    (user.role = "technician" → pyStrip comment ≠ "" →
      (comment_ticket db user ticket_id comment now).1.tickets = db.tickets ∧
      (comment_ticket db user ticket_id comment now).1.timeline
        = db.timeline ++
          [⟨ticket_id, "Comentario técnico: " ++ pyStrip comment, now⟩] ∧
      (comment_ticket db user ticket_id comment now).2
        = Resp.redirect ticket_id) := by
  constructor
  · intro hc
    by_cases hr : user.role = "technician"
    · simp [comment_ticket, hr, hc]
    · rw [comment_ticket, if_pos hr]
  · intro hr hc
    simp [comment_ticket, hr, hc]

theorem C9_comment_ticket_witness :
    comment_ticket wDB wTech 1 " \x1c\x1d\x1e\x1f\xa0\x85 " 3
      = (wDB, Resp.redirect 1) ∧
    (comment_ticket wDB wTech 1 " listo " 3).1.tickets = wDB.tickets ∧
    (comment_ticket wDB wTech 1 " listo " 3).1.timeline
      = wDB.timeline ++ [⟨1, "Comentario técnico: listo", 3⟩] :=
  ⟨(C9_comment_ticket wDB wTech 1 " \x1c\x1d\x1e\x1f\xa0\x85 " 3).1
      (by decide),
   ((C9_comment_ticket wDB wTech 1 " listo " 3).2 rfl (by decide)).1,
   ((C9_comment_ticket wDB wTech 1 " listo " 3).2 rfl (by decide)).2.1⟩

/-- C10: closing a ticket id that matches no row, by an authorized actor,
still appends a "Ticket cerrado" timeline entry for that id (there is no
existence check and no 404), while the tickets table is unchanged, so the
timeline then contains an entry whose ticket id matches no ticket. -/
theorem C10_close_missing (db : DB) (user : UserCtx) (ticket_id : Nat)
    (now : ℚ) (hrole : user.role = "admin" ∨ user.role = "technician")
    (hmissing : ∀ t ∈ db.tickets, t.id ≠ ticket_id) :
    (close_ticket db user ticket_id now).1.timeline
      = db.timeline ++ [⟨ticket_id, "Ticket cerrado", now⟩] ∧
    (close_ticket db user ticket_id now).1.tickets = db.tickets ∧
    ∃ e ∈ (close_ticket db user ticket_id now).1.timeline,
      e.ticket_id = ticket_id ∧
      ∀ t ∈ (close_ticket db user ticket_id now).1.tickets,
        t.id ≠ e.ticket_id := by
  have htk : (close_ticket db user ticket_id now).1.tickets = db.tickets := by
    rw [close_ticket, if_neg (not_not_intro hrole)]
    exact updateWhereId_of_not_mem db.tickets ticket_id _ hmissing
  have htl : (close_ticket db user ticket_id now).1.timeline
      = db.timeline ++ [⟨ticket_id, "Ticket cerrado", now⟩] := by
    rw [close_ticket, if_neg (not_not_intro hrole)]
  refine ⟨htl, htk, ⟨ticket_id, "Ticket cerrado", now⟩, ?_, rfl, ?_⟩
  · rw [htl]
    exact List.mem_append_right db.timeline (List.mem_singleton.2 rfl)
  · intro t ht
    rw [htk] at ht
    exact hmissing t ht

theorem C10_close_missing_witness :
    (close_ticket wDB wAdmin 99 5).1.timeline
      = wDB.timeline ++ [⟨99, "Ticket cerrado", 5⟩] ∧
    (close_ticket wDB wAdmin 99 5).1.tickets = wDB.tickets :=
  ⟨(C10_close_missing wDB wAdmin 99 5 (Or.inl rfl) (by decide)).1,
   (C10_close_missing wDB wAdmin 99 5 (Or.inl rfl) (by decide)).2.1⟩

/-- C5: a reassign by a technician to the sentinel "dispatcher" resets the
matching ticket to "Sin asignar"/"Pendiente"; a reassign to the email of an
existing technician assigns that email and sets "En progreso"; both cases
append exactly one timeline entry for the ticket. -/
theorem C5_reassign_ticket (db : DB) (techs : List Technician)
    (user : UserCtx) (ticket_id : Nat) (technician_email note : String)
    (now : ℚ) (hrole : user.role = "technician") :
    (technician_email = "dispatcher" →
      (∀ t ∈ (reassign_ticket db techs user ticket_id technician_email
          note now).1.tickets,
        t.id = ticket_id →
          t.assigned_to = "Sin asignar" ∧ t.status = "Pendiente") ∧
      ∃ e, (reassign_ticket db techs user ticket_id technician_email
          note now).1.timeline = db.timeline ++ [e] ∧
        e.ticket_id = ticket_id) ∧
    (∀ tech, technician_email ≠ "dispatcher" →
      _get_technician_by_email techs technician_email = some tech →
      (∀ t ∈ (reassign_ticket db techs user ticket_id technician_email
          note now).1.tickets,
        t.id = ticket_id →
          t.assigned_to = technician_email ∧ t.status = "En progreso") ∧
      ∃ e, (reassign_ticket db techs user ticket_id technician_email
          note now).1.timeline = db.timeline ++ [e] ∧
        e.ticket_id = ticket_id) := by
  constructor
  · intro hdisp
    subst hdisp
    rw [reassign_ticket, if_neg (not_not_intro hrole)]
    simp only [if_neg (by decide : ¬ ("dispatcher" : String) = ""),
      if_pos rfl]
    constructor
    · intro t ht htid
      obtain ⟨s, _, _, rfl⟩ :=
        (mem_updateWhereId db.tickets ticket_id
          (fun t => { t with assigned_to := "Sin asignar",
                             status := "Pendiente" })
          (fun s => rfl) t ht).1 htid
      exact ⟨rfl, rfl⟩
    · exact ⟨_, rfl, rfl⟩
  · intro tech hdisp htech
    have hne : technician_email ≠ "" := by
      intro h
      rw [h] at htech
      simp [_get_technician_by_email] at htech
    rw [reassign_ticket, if_neg (not_not_intro hrole)]
    simp only [if_neg hne, if_neg hdisp, htech]
    constructor
    · intro t ht htid
      obtain ⟨s, _, _, rfl⟩ :=
        (mem_updateWhereId db.tickets ticket_id
          (fun t => { t with assigned_to := technician_email,
                             status := "En progreso" })
          (fun s => rfl) t ht).1 htid
      exact ⟨rfl, rfl⟩
    · exact ⟨_, rfl, rfl⟩

theorem C5_reassign_ticket_witness :
    (∀ t ∈ (reassign_ticket wDB DEFAULT_TECHNICIANS wTech 2 "dispatcher"
        "no es mi tema" 9).1.tickets,
      t.id = 2 → t.assigned_to = "Sin asignar" ∧ t.status = "Pendiente") ∧
    (∀ t ∈ (reassign_ticket wDB DEFAULT_TECHNICIANS wTech 1
        "carlos.perez@miempresa.com" "" 9).1.tickets,
      t.id = 1 →
        t.assigned_to = "carlos.perez@miempresa.com" ∧
        t.status = "En progreso") :=
  ⟨((C5_reassign_ticket wDB DEFAULT_TECHNICIANS wTech 2 "dispatcher"
      "no es mi tema" 9 rfl).1 rfl).1,
   ((C5_reassign_ticket wDB DEFAULT_TECHNICIANS wTech 1
      "carlos.perez@miempresa.com" "" 9 rfl).2
      ⟨"Carlos Perez", "carlos.perez@miempresa.com", "Software", true⟩
      (by decide) (by decide)).1⟩

/-- C6: assigning is dispatcher-only, and the gating is exact: a dispatcher
actor sets the matching ticket's assigned_to to the given technician email
and its status to "En progreso" (other tickets unchanged) and appends one
timeline entry naming the actor and the technician; any other role leaves
the store completely unchanged and is redirected. -/
theorem C6_assign_ticket (db : DB) (techs : List Technician)
    (user : UserCtx) (ticket_id : Nat) (technician_email : String) (now : ℚ)
    (he : technician_email ≠ "") :
    (user.role = "dispatcher" →
      (∀ t ∈ (assign_ticket db techs user ticket_id (some technician_email)
          now).1.tickets,
        t.id = ticket_id →
          t.assigned_to = technician_email ∧ t.status = "En progreso") ∧
      (∀ t ∈ (assign_ticket db techs user ticket_id (some technician_email)
          now).1.tickets,
        t.id ≠ ticket_id → t ∈ db.tickets) ∧
      (assign_ticket db techs user ticket_id (some technician_email)
          now).1.timeline
        = db.timeline ++
          [⟨ticket_id,
            "Derivado por "
              ++ (if user.identifier = "" then "Derivador"
                  else user.identifier)
              ++ " a " ++ assignedLabel techs technician_email, now⟩] ∧
      (∀ tech, _get_technician_by_email techs technician_email = some tech →
        assignedLabel techs technician_email
          = tech.name ++ " (" ++ tech.email ++ ")")) ∧
    (user.role ≠ "dispatcher" →
      assign_ticket db techs user ticket_id (some technician_email) now
        = (db, Resp.redirect ticket_id)) := by
  constructor
  · intro hrole
    rw [assign_ticket.eq_def, if_neg (not_not_intro hrole)]
    simp only [if_neg he]
    refine ⟨?_, ?_, by trivial, ?_⟩
    · intro t ht htid
      obtain ⟨s, _, _, rfl⟩ :=
        (mem_updateWhereId db.tickets ticket_id
          (fun t => { t with assigned_to := technician_email,
                             status := "En progreso" })
          (fun s => rfl) t ht).1 htid
      exact ⟨rfl, rfl⟩
    · intro t ht htid
      exact (mem_updateWhereId db.tickets ticket_id
        (fun t => { t with assigned_to := technician_email,
                           status := "En progreso" })
        (fun s => rfl) t ht).2 htid
    · intro tech htech
      rw [assignedLabel, htech]
  · intro hrole
    rw [assign_ticket.eq_def, if_pos hrole]

theorem C6_assign_ticket_witness :
    (∀ t ∈ (assign_ticket wDB DEFAULT_TECHNICIANS wDispatcher 1
        (some "ana.rojas@miempresa.com") 11).1.tickets,
      t.id = 1 →
        t.assigned_to = "ana.rojas@miempresa.com" ∧
        t.status = "En progreso") ∧
    assign_ticket wDB DEFAULT_TECHNICIANS wTech 1
      (some "ana.rojas@miempresa.com") 11 = (wDB, Resp.redirect 1) :=
  ⟨((C6_assign_ticket wDB DEFAULT_TECHNICIANS wDispatcher 1
      "ana.rojas@miempresa.com" 11 (by decide)).1 rfl).1,
   (C6_assign_ticket wDB DEFAULT_TECHNICIANS wTech 1
      "ana.rojas@miempresa.com" 11 (by decide)).2 (by decide)⟩

/-- C3: the metrics aggregator refines the spec: total is the number of
tickets, open the number with null closed_at, closed the number with
non-null closed_at, and the average resolution time is the mean of
(closed_at − created_at) over the closed tickets converted to hours and
rounded to 2 decimals — 0 when there are no closed tickets.  (The code
computes closed as total − open and divides by 3600 before rounding; both
agree with the spec reading over exact arithmetic.) -/
theorem C3_calculate_metrics (tickets : List Ticket) :
    _calculate_metrics tickets = metricsSpec tickets := by
  have hlen := filterMap_closed_length tickets (fun t c => c - t.created_at)
  have hcount := length_filter_none_add_some tickets
  have hhours := hours_eq_durations_div tickets
  unfold _calculate_metrics metricsSpec
  simp only [Metrics.mk.injEq]
  refine ⟨by trivial, by trivial, by omega, ?_⟩
  rw [hhours]
  by_cases hd : tickets.filterMap
      (fun t => t.closed_at.map (fun c => c - t.created_at)) = []
  · rw [hd]
    simp only [List.map_nil, if_pos rfl]
    norm_num [round2]
  · rw [if_neg hd, if_neg (by simp [hd]), sum_map_div, List.length_map]
    congr 1
    rw [div_div, div_div, mul_comm]

/-- C1 counterexample: starting from an empty store, create a ticket,
close it as admin, then assign it as dispatcher: the resulting ticket has
a non-null closed timestamp while its status is "En progreso". -/
theorem C1_counterexample :
    ∃ t ∈ ((assign_ticket
        (close_ticket
          (_create_ticket ⟨[], [], 1⟩ "cliente@dominio.com" "Sin acceso"
            "Detalle" 0).1
          ⟨"admin", "", "admin@miempresa.com"⟩ 1 10).1
        DEFAULT_TECHNICIANS ⟨"dispatcher", "", "derivador@miempresa.com"⟩ 1
        (some "laura.gomez@miempresa.com") 20).1).tickets,
      t.closed_at ≠ none ∧
        (t.status = "Pendiente" ∨ t.status = "En progreso") := by
  decide

/-- C1 (amended): creation establishes the closed-iff-Closed invariant and
close and comment preserve it, but assign and reassign update the status
without clearing closed_at, so on a previously closed ticket a dispatcher
assign leaves a non-null closed timestamp with status "En progreso", a
technician reassign to the "dispatcher" sentinel leaves one with status
"Pendiente", and a technician reassign to an existing technician leaves
one with status "En progreso" — each violating the invariant. -/
theorem C1_amended (db : DB) (hinv : ∀ t ∈ db.tickets, ticketInv t) :
    (∀ email_from subject body now,
      ∀ t ∈ (_create_ticket db email_from subject body now).1.tickets,
        ticketInv t) ∧
    (∀ user ticket_id now,
      ∀ t ∈ (close_ticket db user ticket_id now).1.tickets, ticketInv t) ∧
    (∀ user ticket_id comment now,
      ∀ t ∈ (comment_ticket db user ticket_id comment now).1.tickets,
        ticketInv t) ∧
    (∀ techs user ticket_id technician_email_form now,
      user.role = "dispatcher" →
      (∃ t ∈ db.tickets, t.id = ticket_id ∧ t.closed_at ≠ none) →
      ∃ t ∈ (assign_ticket db techs user ticket_id technician_email_form
          now).1.tickets,
        t.closed_at ≠ none ∧ t.status = "En progreso" ∧ ¬ ticketInv t) ∧
    (∀ techs user ticket_id note now,
      user.role = "technician" →
      (∃ t ∈ db.tickets, t.id = ticket_id ∧ t.closed_at ≠ none) →
      ∃ t ∈ (reassign_ticket db techs user ticket_id "dispatcher" note
          now).1.tickets,
        t.closed_at ≠ none ∧ t.status = "Pendiente" ∧ ¬ ticketInv t) ∧
    (∀ techs user ticket_id technician_email note now tech,
      user.role = "technician" → technician_email ≠ "dispatcher" →
      _get_technician_by_email techs technician_email = some tech →
      (∃ t ∈ db.tickets, t.id = ticket_id ∧ t.closed_at ≠ none) →
      ∃ t ∈ (reassign_ticket db techs user ticket_id technician_email note
          now).1.tickets,
        t.closed_at ≠ none ∧ t.status = "En progreso" ∧ ¬ ticketInv t) := by
  refine ⟨?_, ?_, ?_, ?_, ?_, ?_⟩
  · intro email_from subject body now t ht
    rcases List.mem_append.1 ht with h | h
    · exact hinv t h
    · rw [List.mem_singleton.1 h]
      simp [ticketInv]
  · intro user ticket_id now t ht
    by_cases hr : user.role = "admin" ∨ user.role = "technician"
    · rw [close_ticket, if_neg (not_not_intro hr)] at ht
      obtain ⟨s, hs, rfl⟩ := List.mem_map.1 ht
      by_cases hc : s.id = ticket_id
      · rw [if_pos hc]
        simp [ticketInv]
      · rw [if_neg hc]
        exact hinv s hs
    · rw [close_ticket, if_pos hr] at ht
      exact hinv t ht
  · intro user ticket_id comment now t ht
    by_cases hr : user.role = "technician"
    · by_cases hc : pyStrip comment = ""
      · simp only [comment_ticket, if_neg (not_not_intro hr), hc,
          if_pos rfl] at ht
        exact hinv t ht
      · simp only [comment_ticket, if_neg (not_not_intro hr),
          if_neg hc] at ht
        exact hinv t ht
    · rw [comment_ticket, if_pos hr] at ht
      exact hinv t ht
  · intro techs user ticket_id technician_email_form now hrole hclosed
    obtain ⟨t0, hmem, hid, hca⟩ := hclosed
    rw [assign_ticket.eq_def, if_neg (not_not_intro hrole)]
    refine ⟨{ t0 with
        assigned_to := match technician_email_form with
          | none => "Sin asignar"
          | some s => if s = "" then "Sin asignar" else s,
        status := "En progreso" }, ?_, hca, rfl, ?_⟩
    · exact updated_mem_updateWhereId db.tickets ticket_id _ t0 hmem hid
    · intro hinv'
      have : ("En progreso" : String) = "Cerrado" := hinv'.1 hca
      exact absurd this (by decide)
  · intro techs user ticket_id note now hrole hclosed
    obtain ⟨t0, hmem, hid, hca⟩ := hclosed
    rw [reassign_ticket, if_neg (not_not_intro hrole)]
    simp only [if_neg (by decide : ¬ ("dispatcher" : String) = ""),
      if_pos rfl]
    refine ⟨{ t0 with assigned_to := "Sin asignar", status := "Pendiente" },
      ?_, hca, rfl, ?_⟩
    · exact updated_mem_updateWhereId db.tickets ticket_id _ t0 hmem hid
    · intro hinv'
      have : ("Pendiente" : String) = "Cerrado" := hinv'.1 hca
      exact absurd this (by decide)
  · intro techs user ticket_id technician_email note now tech hrole hdisp
      htech hclosed
    obtain ⟨t0, hmem, hid, hca⟩ := hclosed
    have hne : technician_email ≠ "" := by
      intro h
      rw [h] at htech
      simp [_get_technician_by_email] at htech
    rw [reassign_ticket, if_neg (not_not_intro hrole)]
    simp only [if_neg hne, if_neg hdisp, htech]
    refine ⟨{ t0 with
        assigned_to := technician_email,
        status := "En progreso" }, ?_, hca, rfl, ?_⟩
    · exact updated_mem_updateWhereId db.tickets ticket_id _ t0 hmem hid
    · intro hinv'
      have : ("En progreso" : String) = "Cerrado" := hinv'.1 hca
      exact absurd this (by decide)

theorem C1_amended_witness :
    (∃ t ∈ (assign_ticket wDB DEFAULT_TECHNICIANS wDispatcher 2
        (some "carlos.perez@miempresa.com") 30).1.tickets,
      t.closed_at ≠ none ∧ t.status = "En progreso" ∧ ¬ ticketInv t) ∧
    (∃ t ∈ (reassign_ticket wDB DEFAULT_TECHNICIANS wTech 2 "dispatcher"
        "" 30).1.tickets,
      t.closed_at ≠ none ∧ t.status = "Pendiente" ∧ ¬ ticketInv t) ∧
    (∃ t ∈ (reassign_ticket wDB DEFAULT_TECHNICIANS wTech 2
        "carlos.perez@miempresa.com" "" 30).1.tickets,
      t.closed_at ≠ none ∧ t.status = "En progreso" ∧ ¬ ticketInv t) :=
  ⟨(C1_amended wDB (by decide)).2.2.2.1 DEFAULT_TECHNICIANS wDispatcher 2
      (some "carlos.perez@miempresa.com") 30 rfl
      ⟨wTicketClosed, by decide, by decide, by decide⟩,
   (C1_amended wDB (by decide)).2.2.2.2.1 DEFAULT_TECHNICIANS wTech 2 "" 30
      rfl ⟨wTicketClosed, by decide, by decide, by decide⟩,
   (C1_amended wDB (by decide)).2.2.2.2.2 DEFAULT_TECHNICIANS wTech 2
      "carlos.perez@miempresa.com" "" 30
      ⟨"Carlos Perez", "carlos.perez@miempresa.com", "Software", true⟩ rfl
      (by decide) (by decide)
      ⟨wTicketClosed, by decide, by decide, by decide⟩⟩

/-- C8 counterexample: in this variant `_create_ticket` never auto-routes:
a ticket whose subject contains "red" is still inserted with assigned_to
"Sin asignar" (not the networking technician Laura Gomez). -/
theorem C8_counterexample :
    (∃ pre post : String,
      "Sin acceso a la red" = pre ++ "red" ++ post) ∧
    (_create_ticket ⟨[], [], 1⟩ "cliente@dominio.com" "Sin acceso a la red"
        "Detalle" 0).1.tickets
      = [{ id := 1, email_from := "cliente@dominio.com",
           subject := "Sin acceso a la red", body := "Detalle",
           assigned_to := "Sin asignar", status := "Pendiente",
           created_at := 0, closed_at := none }] ∧
    ("Sin asignar" : String) ≠ "laura.gomez@miempresa.com" :=
  ⟨⟨"Sin acceso a la ", "", rfl⟩, rfl, by decide⟩

/-- C8 (amended): this variant performs no keyword auto-routing at
creation: for every input — in particular when the subject or body
contains "red" — the created ticket is left unassigned ("Sin asignar")
with status "Pendiente". -/
theorem C8_amended (db : DB) (email_from subject body : String) (now : ℚ) :
    (_create_ticket db email_from subject body now).1.tickets.getLast?
      = some { id := db.nextId, email_from := email_from, subject := subject,
               body := body, assigned_to := "Sin asignar",
               status := "Pendiente", created_at := now,
               closed_at := none } := by
  simp [_create_ticket]
